import Mathlib

/-!
Shallow embedding of `server_wamp/protocol.py` (aiohttp-server-wamp).

The wire layer carries JSON text; `WAMPProtocol.handle_msg` first runs
`deserialize` (Python `json.loads`) on the text.  We model decoded JSON
values with the inductive `Value` below (floats are not modelled: no claim
involves them) and model `handle_msg`'s input as the outcome of that
deserialization, `Except Unit Value`, where `.error ()` stands for text
that `json.loads` rejects.

Side effects are modelled explicitly: every dispatcher entry point returns
the ordered list of transport actions it performed (`schedule_msg` of an
envelope, `close`, invoking the open handler) together with an optional
uncaught Python exception (`Fault`).  An exception aborts the method, so
actions recorded before a fault are exactly those the Python code performed
before raising.

The externally injected handlers (`rpc_handler`, `subscribe_handler`,
`unsubscribe_handler`) are modelled as pure functions returning either the
object the Python callable would return or the exception it would raise.
-/

/-- A decoded JSON value.  Python `bool` is a subclass of `int`, so `vbool`
is kept distinct and the `isinstance(x, int)` and `==` checks below treat it
like the integers 0 and 1, as Python does. -/
inductive Value where
  | vnull : Value
  | vbool (b : Bool) : Value
  | vint (n : Int) : Value
  | vstr (s : String) : Value
  | vlist (xs : List Value) : Value
  | vmap (entries : List (String × Value)) : Value
deriving Repr

/- Message type codes from the `WAMPMsgType` IntEnum. -/
namespace WAMPMsgType

def HELLO : Int := 1

def WELCOME : Int := 2

def ABORT : Int := 3

def ERROR : Int := 8

def CALL : Int := 48

def CALL_RESULT : Int := 50

def INVOCATION : Int := 68

def SUBSCRIBE : Int := 32

def SUBSCRIBED : Int := 33

def UNSUBSCRIBE : Int := 34

def UNSUBSCRIBED : Int := 35

def PUBLISH : Int := 16

def PUBLISHED : Int := 17

def EVENT : Int := 36

end WAMPMsgType

/-- Python `==` between a decoded JSON value and an int constant
(`msg_type == WAMPMsgType.X`): ints compare numerically and `True`/`False`
equal 1/0; every other JSON value is unequal to an int. -/
def pyEqInt (v : Value) (n : Int) : Bool :=
  match v with
  | .vint m => m == n
  | .vbool b => (if b then (1 : Int) else 0) == n
  | _ => false

/-- Python `isinstance(x, int)`: true for ints and bools (bool subclasses int). -/
def isinstanceInt (v : Value) : Bool :=
  match v with
  | .vint _ => true
  | .vbool _ => true
  | _ => false

/-- Python `isinstance(x, str)`. -/
def isinstanceStr (v : Value) : Bool :=
  match v with
  | .vstr _ => true
  | _ => false

/-- `WAMPSession` dataclass. -/
structure WAMPSession where
  session_id : Int
  remote : Option String := none

/-- `WAMPRequest` dataclass.  The Python type annotations are not enforced
at runtime, so `request_id` holds whatever decoded value the peer sent. -/
structure WAMPRequest where
  session : WAMPSession
  request_id : Value

/-- `WAMPSubscribeRequest` dataclass. -/
structure WAMPSubscribeRequest extends WAMPRequest where
  options : Value
  uri : Value

/-- `WAMPSubscribeErrorResponse` dataclass. -/
structure WAMPSubscribeErrorResponse where
  request : WAMPSubscribeRequest
  uri : String
  details : Value := .vmap []

/-- `WAMPUnsubscribeRequest` dataclass. -/
structure WAMPUnsubscribeRequest extends WAMPRequest where
  subscription : Value

/-- `WAMPUnsubscribeErrorResponse` dataclass. -/
structure WAMPUnsubscribeErrorResponse where
  request : WAMPUnsubscribeRequest
  uri : String
  details : Value := .vmap []

/-- `WAMPEvent` dataclass. -/
structure WAMPEvent where
  publication : Int
  details : List (String × Value) := []
  args : List Value := []
  kwargs : List (String × Value) := []

/-- `WAMPRPCRequest` dataclass. -/
structure WAMPRPCRequest extends WAMPRequest where
  options : Value
  uri : Value
  args : Value := .vlist []
  kwargs : Value := .vmap []

/-- `WAMPRPCErrorResponse` dataclass. -/
structure WAMPRPCErrorResponse where
  request : WAMPRPCRequest
  uri : String
  details : Value := .vmap []
  args : Value := .vlist []
  kwargs : Value := .vmap []

/-- Outcome of calling the injected `rpc_handler`: a plain return value,
a `WAMPRPCErrorResponse` return value, or a raised exception whose
`str(e)` is the given string. -/
inductive RPCHandlerOutcome where
  | result (v : Value) : RPCHandlerOutcome
  | errorResponse (e : WAMPRPCErrorResponse) : RPCHandlerOutcome
  | raises (msg : String) : RPCHandlerOutcome

/-- Outcome of calling the injected `subscribe_handler`: a response object
carrying `.subscription`, a `WAMPSubscribeErrorResponse`, or a raised
exception. -/
inductive SubscribeHandlerOutcome where
  | response (subscription : Value) : SubscribeHandlerOutcome
  | errorResponse (e : WAMPSubscribeErrorResponse) : SubscribeHandlerOutcome
  | raises (msg : String) : SubscribeHandlerOutcome

/-- Outcome of calling the injected `unsubscribe_handler`: a non-error
return value (its content is unused by the success reply), a
`WAMPUnsubscribeErrorResponse`, or a raised exception. -/
inductive UnsubscribeHandlerOutcome where
  | success : UnsubscribeHandlerOutcome
  | errorResponse (e : WAMPUnsubscribeErrorResponse) : UnsubscribeHandlerOutcome
  | raises (msg : String) : UnsubscribeHandlerOutcome

/-- A transport-visible action of the dispatcher, in execution order. -/
inductive TransportAction where
  | scheduleMsg (fields : List Value) : TransportAction
  | close : TransportAction
  | openHook : TransportAction
deriving Repr

/-- An uncaught Python exception escaping the dispatcher method.
`awaitTypeError` is the `TypeError` raised by `await`ing the `None`
returned by a plain (non-async) method. -/
inductive Fault where
  | jsonDecodeError : Fault
  | notAList : Fault
  | indexError : Fault
  | validationError : Fault
  | awaitTypeError : Fault
deriving Repr

/-- Result of one dispatcher entry point: the transport actions performed,
and the uncaught exception if one escaped. -/
structure HandleResult where
  actions : List TransportAction
  fault : Option Fault
deriving Repr

/-- The `WAMPProtocol` instance state relevant to dispatch: the session,
the agent name, and the injected handler capabilities. -/
structure WAMPProtocol where
  session : WAMPSession
  agent_name : String := "aiohttp-server-wamp"
  rpc_handler : WAMPRPCRequest → RPCHandlerOutcome
  subscribe_handler : WAMPSubscribeRequest → SubscribeHandlerOutcome
  unsubscribe_handler : WAMPUnsubscribeRequest → UnsubscribeHandlerOutcome

namespace WAMPProtocol

/-- `do_unimplemented(msg_type, request_id)`: schedules
`(ERROR, request_id, {}, "wamp.error.not_implemented")`.  The `msg_type`
argument is accepted but does not appear in the envelope, as in the source. -/
def do_unimplemented (_msg_type : Value) (request_id : Value) : List TransportAction :=
  [.scheduleMsg [.vint WAMPMsgType.ERROR, request_id, .vmap [],
    .vstr "wamp.error.not_implemented"]]

/-- `do_protocol_violation(msg)`: schedules the ABORT envelope, then closes
the transport.  An empty-string `msg` is falsy in Python, giving empty
details, as does `None`. -/
def do_protocol_violation (msg : Option String) : List TransportAction :=
  let details : Value :=
    match msg with
    | some m => if m = "" then .vmap [] else .vmap [("message", .vstr m)]
    | none => .vmap []
  [.scheduleMsg [.vint WAMPMsgType.ABORT, details,
    .vstr "wamp.error.protocol_violation"], .close]

/-- `do_welcome()`: schedules the WELCOME envelope with the session id and
the roles/agent descriptor. -/
def do_welcome (p : WAMPProtocol) : List TransportAction :=
  [.scheduleMsg [.vint WAMPMsgType.WELCOME, .vint p.session.session_id,
    .vmap [("roles", .vmap [("broker", .vmap []), ("dealer", .vmap [])]),
           ("agent", .vstr p.agent_name)]]]

/-- `do_unauthorized(data)`: echoes `data[0]` and `data[1]` in an
unauthorized error envelope.  Indexing a too-short list raises `IndexError`
before anything is scheduled. -/
def do_unauthorized (data : List Value) : HandleResult :=
  match data[0]?, data[1]? with
  | some msg_type, some request_id =>
      ⟨[.scheduleMsg [msg_type, request_id, .vmap [],
        .vstr "wamp.error.not_authorized"]], none⟩
  | _, _ => ⟨[], some .indexError⟩

/-- `publish_event(subscription, event)`: builds
`[EVENT, subscription, event.publication, {}]` (the details field is the
literal empty dict in the source, not `event.details`) and appends `args`
and `kwargs` per the truthiness of `event.kwargs` / `event.args`. -/
def publish_event (subscription : Value) (event : WAMPEvent) : List TransportAction :=
  let base : List Value :=
    [.vint WAMPMsgType.EVENT, subscription, .vint event.publication, .vmap []]
  let msg : List Value :=
    if !event.kwargs.isEmpty then
      base ++ [.vlist event.args, .vmap event.kwargs]
    else if !event.args.isEmpty then
      base ++ [.vlist event.args]
    else
      base
  [.scheduleMsg msg]

/-- `recv_rpc_call(data)`.  `data[1]` and `data[2]` are read
unconditionally (`IndexError` when absent); `args`/`kwargs` default to
`()` / `{}`.  The `isinstance` validation raises a bare `Exception()`
outside the `try` block.  Inside the `try`, the handler's return value is
inspected for `WAMPRPCErrorResponse` and any exception is converted to a
generic `wamp.error.exception_during_rpc_call` error envelope. -/
def recv_rpc_call (p : WAMPProtocol) (data : List Value) : HandleResult :=
  match data[1]?, data[2]? with
  | some request_id, some uri =>
      let args := (data[3]?).getD (Value.vlist [])
      let kwargs := (data[4]?).getD (Value.vmap [])
      if ¬ (isinstanceInt request_id ∧ isinstanceStr uri) then
        ⟨[], some .validationError⟩
      else
        let request : WAMPRPCRequest :=
          { session := p.session, request_id := request_id,
            options := .vmap [], uri := uri, args := args, kwargs := kwargs }
        match p.rpc_handler request with
        | .result v =>
            ⟨[.scheduleMsg [.vint WAMPMsgType.CALL_RESULT, request_id, v]], none⟩
        | .errorResponse e =>
            ⟨[.scheduleMsg [.vint WAMPMsgType.ERROR, .vint WAMPMsgType.CALL,
              request_id, .vmap [], .vstr e.uri, e.args, e.kwargs]], none⟩
        | .raises m =>
            ⟨[.scheduleMsg [.vint WAMPMsgType.ERROR, .vint WAMPMsgType.CALL,
              request_id, .vmap [],
              .vstr "wamp.error.exception_during_rpc_call", .vstr m]], none⟩
  | _, _ => ⟨[], some .indexError⟩

/-- `recv_subscribe(data)`: reads `data[1]`, `data[2]`, `data[3]`
unconditionally, then delegates to the subscribe handler. -/
def recv_subscribe (p : WAMPProtocol) (data : List Value) : HandleResult :=
  match data[1]?, data[2]?, data[3]? with
  | some request_id, some options, some uri =>
      let request : WAMPSubscribeRequest :=
        { session := p.session, request_id := request_id,
          options := options, uri := uri }
      match p.subscribe_handler request with
      | .response subscription =>
          ⟨[.scheduleMsg [.vint WAMPMsgType.SUBSCRIBED, request_id,
            subscription]], none⟩
      | .errorResponse e =>
          ⟨[.scheduleMsg [.vint WAMPMsgType.ERROR, .vint WAMPMsgType.SUBSCRIBE,
            request_id, e.details, .vstr e.uri]], none⟩
      | .raises m =>
          ⟨[.scheduleMsg [.vint WAMPMsgType.ERROR, .vint WAMPMsgType.SUBSCRIBE,
            request_id, .vmap [],
            .vstr "wamp.error.exception_during_rpc_call", .vstr m]], none⟩
  | _, _, _ => ⟨[], some .indexError⟩

/-- `recv_unsubscribe(data)`: reads `data[1]`, `data[2]` unconditionally,
then delegates to the unsubscribe handler.  The typed-error reply carries
`WAMPMsgType.UNSUBSCRIBE` as its second field, while the exception branch
carries `WAMPMsgType.SUBSCRIBE`, exactly as in the source. -/
def recv_unsubscribe (p : WAMPProtocol) (data : List Value) : HandleResult :=
  match data[1]?, data[2]? with
  | some request_id, some subscription =>
      let request : WAMPUnsubscribeRequest :=
        { session := p.session, request_id := request_id,
          subscription := subscription }
      match p.unsubscribe_handler request with
      | .success =>
          ⟨[.scheduleMsg [.vint WAMPMsgType.UNSUBSCRIBED, request_id]], none⟩
      | .errorResponse e =>
          ⟨[.scheduleMsg [.vint WAMPMsgType.ERROR, .vint WAMPMsgType.UNSUBSCRIBE,
            request_id, e.details, .vstr e.uri]], none⟩
      | .raises m =>
          ⟨[.scheduleMsg [.vint WAMPMsgType.ERROR, .vint WAMPMsgType.SUBSCRIBE,
            request_id, .vmap [],
            .vstr "wamp.error.exception_during_rpc_call", .vstr m]], none⟩
  | _, _ => ⟨[], some .indexError⟩

/-- `handle_msg(message)` after `deserialize`: `.error ()` stands for text
`json.loads` rejects (the `JSONDecodeError` propagates uncaught); a decoded
non-list raises `Exception('incoming data is no list')` uncaught; otherwise
`data[0]` selects the branch via Python `==` against the IntEnum members.
The EVENT/INVOCATION branch executes `await self.do_unauthorized(data)`,
but `do_unauthorized` is a plain `def`, not `async def`: its body runs to
completion (scheduling the reply), it returns `None`, and awaiting `None`
then raises an uncaught `TypeError` out of `handle_msg`.  An exception
raised *inside* `do_unauthorized` (the `IndexError` on short data)
propagates before the `await` ever completes, so no `TypeError` follows it. -/
def handle_msg (p : WAMPProtocol) (decoded : Except Unit Value) : HandleResult :=
  match decoded with
  | .error _ => ⟨[], some .jsonDecodeError⟩
  | .ok v =>
    match v with
    | .vlist data =>
      match data[0]? with
      | none => ⟨[], some .indexError⟩
      | some msg_type =>
        if pyEqInt msg_type WAMPMsgType.HELLO then
          ⟨p.do_welcome ++ [.openHook], none⟩
        else if pyEqInt msg_type WAMPMsgType.CALL then
          p.recv_rpc_call data
        else if pyEqInt msg_type WAMPMsgType.SUBSCRIBE then
          p.recv_subscribe data
        else if pyEqInt msg_type WAMPMsgType.UNSUBSCRIBE then
          p.recv_unsubscribe data
        else if pyEqInt msg_type WAMPMsgType.EVENT ∨
            pyEqInt msg_type WAMPMsgType.INVOCATION then
          match do_unauthorized data with
          | ⟨acts, some f⟩ => ⟨acts, some f⟩
          | ⟨acts, none⟩ => ⟨acts, some .awaitTypeError⟩
        else if pyEqInt msg_type WAMPMsgType.PUBLISH ∨
            pyEqInt msg_type WAMPMsgType.PUBLISHED then
          match data[1]? with
          | some rid => ⟨do_unimplemented msg_type rid, none⟩
          | none => ⟨[], some .indexError⟩
        else
          ⟨do_protocol_violation (some "Unknown WAMP message type."), none⟩
    | _ => ⟨[], some .notAList⟩

/-- A session trace: the dispatcher holds no per-message state, so a
sequence of incoming messages is handled message by message. -/
def handle_session (p : WAMPProtocol) (msgs : List (Except Unit Value)) :
    List HandleResult :=
  msgs.map p.handle_msg

end WAMPProtocol

/-! ### Concrete protocol instances used as test fixtures -/

/-- A concrete session, as built at connection acceptance. -/
def sampleSession : WAMPSession := { session_id := 101 }

/-- A protocol whose RPC executor returns the plain value `5` and whose
registries succeed. -/
def protoA : WAMPProtocol :=
  { session := sampleSession,
    rpc_handler := fun _ => .result (.vint 5),
    subscribe_handler := fun _ => .response (.vint 77),
    unsubscribe_handler := fun _ => .success }

/-- A concrete unsubscribe request, as the dispatcher builds it for
`data = [UNSUBSCRIBE, 9, 5]`. -/
def unsubRequest : WAMPUnsubscribeRequest :=
  { session := sampleSession, request_id := .vint 9, subscription := .vint 5 }

/-- A typed error value returned by an unsubscribe registry. -/
def unsubErrResponse : WAMPUnsubscribeErrorResponse :=
  { request := unsubRequest, uri := "wamp.error.no_such_subscription" }

/-- A protocol whose unsubscribe registry returns the typed error above. -/
def protoB : WAMPProtocol :=
  { session := sampleSession,
    rpc_handler := fun _ => .result .vnull,
    subscribe_handler := fun _ => .response (.vint 0),
    unsubscribe_handler := fun _ => .errorResponse unsubErrResponse }

/-- A protocol whose every handler raises an exception with text `boom`. -/
def protoC : WAMPProtocol :=
  { session := sampleSession,
    rpc_handler := fun _ => .raises "boom",
    subscribe_handler := fun _ => .raises "boom",
    unsubscribe_handler := fun _ => .raises "boom" }

/-! ### Claim C1 -/

/-- C1, counterexample: on text `json.loads` rejects, and on decoded
non-list data (here the integer `3`), `handle_msg` performs no transport
action at all — no ABORT envelope is scheduled and no close is requested;
an uncaught exception escapes instead.  This refutes the claim that such
input yields exactly one ABORT envelope followed by a close request. -/
theorem c1_malformed_counterexample :
    WAMPProtocol.handle_msg protoA (.error ()) = ⟨[], some .jsonDecodeError⟩ ∧
    WAMPProtocol.handle_msg protoA (.ok (.vint 3)) = ⟨[], some .notAList⟩ :=
  ⟨rfl, rfl⟩

/-- C1, amended: when `handle_msg` receives text that is not parseable as
structured data, or whose top-level value is not an ordered sequence, it
raises an uncaught exception and performs no transport action: no ABORT
envelope is sent and transport close is not requested. -/
theorem c1_malformed_amended (p : WAMPProtocol) (v : Value)
    (h : ∀ xs, v ≠ .vlist xs) :
    p.handle_msg (.error ()) = ⟨[], some .jsonDecodeError⟩ ∧
    p.handle_msg (.ok v) = ⟨[], some .notAList⟩ := by
  refine ⟨rfl, ?_⟩
  cases v with
  | vlist xs => exact absurd rfl (h xs)
  | vnull => rfl
  | vbool b => rfl
  | vint n => rfl
  | vstr s => rfl
  | vmap entries => rfl

/-- C1 witness: the amended theorem at the concrete non-list input `3`. -/
theorem c1_malformed_amended_witness :
    WAMPProtocol.handle_msg protoA (.error ()) = ⟨[], some .jsonDecodeError⟩ ∧
    WAMPProtocol.handle_msg protoA (.ok (.vint 3)) = ⟨[], some .notAList⟩ :=
  c1_malformed_amended protoA (.vint 3) (fun _ h => Value.noConfusion h)

/-! ### Claim C7 -/

/-- C7, counterexample: an event whose `details` mapping is non-empty is
published with an *empty* details field — the source writes the literal
`{}` as the fourth envelope field and ignores `event.details`.  This
refutes the claim that the fourth field is the event's details mapping. -/
theorem c7_publish_event_counterexample :
    WAMPProtocol.publish_event (.vint 42)
        { publication := 11, details := [("a", .vint 1)] } =
      [.scheduleMsg [.vint WAMPMsgType.EVENT, .vint 42, .vint 11, .vmap []]] ∧
    ([("a", Value.vint 1)] : List (String × Value)) ≠ [] :=
  ⟨rfl, fun h => List.noConfusion h⟩

/-- C7, amended: every `publish_event(subscription_id, event)` envelope
begins `[EVENT, subscription_id, event.publication, {}]` — the details
field is always the empty mapping, regardless of `event.details` — and
then: if `event.kwargs` is non-empty both `args` and `kwargs` are appended
in that order; else if `event.args` is non-empty only `args` is appended;
else neither is appended. -/
theorem c7_publish_event_amended (subscription : Value) (event : WAMPEvent) :
    (event.kwargs ≠ [] →
      WAMPProtocol.publish_event subscription event =
        [.scheduleMsg ([.vint WAMPMsgType.EVENT, subscription,
          .vint event.publication, .vmap []] ++
          [.vlist event.args, .vmap event.kwargs])]) ∧
    (event.kwargs = [] → event.args ≠ [] →
      WAMPProtocol.publish_event subscription event =
        [.scheduleMsg ([.vint WAMPMsgType.EVENT, subscription,
          .vint event.publication, .vmap []] ++ [.vlist event.args])]) ∧
    (event.kwargs = [] → event.args = [] →
      WAMPProtocol.publish_event subscription event =
        [.scheduleMsg [.vint WAMPMsgType.EVENT, subscription,
          .vint event.publication, .vmap []]]) := by
  refine ⟨fun hk => ?_, fun hk ha => ?_, fun hk ha => ?_⟩ <;>
    simp [WAMPProtocol.publish_event, List.isEmpty_iff, hk]
  · simp [ha]
  · simp [ha]

/-- C7 witness: the amended theorem applied at concrete events covering
the three inclusion cases. -/
theorem c7_publish_event_amended_witness :
    WAMPProtocol.publish_event (.vint 42)
        { publication := 11, args := [.vint 1], kwargs := [("k", .vint 2)] } =
      [.scheduleMsg [.vint WAMPMsgType.EVENT, .vint 42, .vint 11, .vmap [],
        .vlist [.vint 1], .vmap [("k", .vint 2)]]] ∧
    WAMPProtocol.publish_event (.vint 42)
        { publication := 11, args := [.vint 1] } =
      [.scheduleMsg [.vint WAMPMsgType.EVENT, .vint 42, .vint 11, .vmap [],
        .vlist [.vint 1]]] ∧
    WAMPProtocol.publish_event (.vint 42) { publication := 11 } =
      [.scheduleMsg [.vint WAMPMsgType.EVENT, .vint 42, .vint 11, .vmap []]] :=
  ⟨(c7_publish_event_amended (.vint 42) _).1 (fun h => List.noConfusion h),
   (c7_publish_event_amended (.vint 42) _).2.1 rfl (fun h => List.noConfusion h),
   (c7_publish_event_amended (.vint 42) _).2.2 rfl rfl⟩

/-! ### Claim C10 -/

/-- C10: `handle_msg` is not total over array-shaped inputs: the empty
array, a PUBLISH envelope with fewer than two elements, and an EVENT
envelope with fewer than two elements each make it index out of bounds
(`data[0]` or `data[1]`) and fault, emitting no reply envelope and no
protocol-violation abort. -/
theorem c10_index_error_inputs :
    WAMPProtocol.handle_msg protoA (.ok (.vlist [])) = ⟨[], some .indexError⟩ ∧
    WAMPProtocol.handle_msg protoA
        (.ok (.vlist [.vint WAMPMsgType.PUBLISH])) = ⟨[], some .indexError⟩ ∧
    WAMPProtocol.handle_msg protoA
        (.ok (.vlist [.vint WAMPMsgType.EVENT])) = ⟨[], some .indexError⟩ :=
  ⟨rfl, rfl, rfl⟩

/-! ### Claim C2 -/

/-- C2, counterexample: a fresh session whose very first incoming message
(no HELLO was ever received) is the CALL `[48, 7, "math.add"]` gets the
normal RPC workflow: the reply is `[CALL_RESULT, 7, 5]`, with no ABORT
envelope, no close request, and no fault.  This refutes the claim that any
pre-HELLO non-HELLO message triggers a protocol violation and is not
processed by its normal request workflow. -/
theorem c2_pre_hello_counterexample :
    WAMPProtocol.handle_session protoA
        [.ok (.vlist [.vint WAMPMsgType.CALL, .vint 7, .vstr "math.add"])] =
      [⟨[.scheduleMsg [.vint WAMPMsgType.CALL_RESULT, .vint 7, .vint 5]],
        none⟩] :=
  rfl

/-- C2, amended: the dispatcher keeps no session-establishment state, so a
message is handled identically whether or not a HELLO preceded it; in
particular a CALL received before any HELLO is routed to the normal RPC
workflow (`recv_rpc_call`), not to the protocol-violation path. -/
theorem c2_pre_hello_amended (p : WAMPProtocol) (m : Except Unit Value)
    (data : List Value) (h : data[0]? = some (.vint WAMPMsgType.CALL)) :
    (p.handle_session [.ok (.vlist [.vint WAMPMsgType.HELLO]), m]).drop 1 =
      p.handle_session [m] ∧
    p.handle_msg (.ok (.vlist data)) = p.recv_rpc_call data := by
  refine ⟨rfl, ?_⟩
  simp [WAMPProtocol.handle_msg, h, pyEqInt, WAMPMsgType.CALL, WAMPMsgType.HELLO]

/-- C2 witness: the amended theorem at the CALL `[48, 7, "math.add"]`. -/
theorem c2_pre_hello_amended_witness :
    (WAMPProtocol.handle_session protoA
        [.ok (.vlist [.vint WAMPMsgType.HELLO]),
         .ok (.vlist [.vint WAMPMsgType.CALL, .vint 7, .vstr "math.add"])]).drop 1 =
      WAMPProtocol.handle_session protoA
        [.ok (.vlist [.vint WAMPMsgType.CALL, .vint 7, .vstr "math.add"])] ∧
    WAMPProtocol.handle_msg protoA
        (.ok (.vlist [.vint WAMPMsgType.CALL, .vint 7, .vstr "math.add"])) =
      WAMPProtocol.recv_rpc_call protoA
        [.vint WAMPMsgType.CALL, .vint 7, .vstr "math.add"] :=
  c2_pre_hello_amended protoA _ _ rfl

/-! ### Claim C3 -/

/-- C3, counterexample: an UNSUBSCRIBE `[34, 9, 5]` whose registry returns
a *typed* error value is answered with an error envelope whose second
field is UNSUBSCRIBE's own code 34, not SUBSCRIBE's code 32.  This refutes
the claim that every UNSUBSCRIBE error reply carries SUBSCRIBE's code. -/
theorem c3_unsubscribe_error_code_counterexample :
    WAMPProtocol.handle_msg protoB
        (.ok (.vlist [.vint WAMPMsgType.UNSUBSCRIBE, .vint 9, .vint 5])) =
      ⟨[.scheduleMsg [.vint WAMPMsgType.ERROR, .vint WAMPMsgType.UNSUBSCRIBE,
        .vint 9, .vmap [], .vstr "wamp.error.no_such_subscription"]], none⟩ ∧
    WAMPMsgType.UNSUBSCRIBE ≠ WAMPMsgType.SUBSCRIBE :=
  ⟨rfl, by decide⟩

/-- C3, amended: in an UNSUBSCRIBE error reply the second field depends on
the failure path: a typed error value from the registry yields
UNSUBSCRIBE's code (34), while an unexpected exception from the registry
yields SUBSCRIBE's code (32). -/
theorem c3_unsubscribe_error_code_amended (p : WAMPProtocol)
    (data : List Value) (rid sub : Value)
    (h0 : data[0]? = some (.vint WAMPMsgType.UNSUBSCRIBE))
    (h1 : data[1]? = some rid) (h2 : data[2]? = some sub) :
    (∀ e, p.unsubscribe_handler
        { session := p.session, request_id := rid, subscription := sub } =
          .errorResponse e →
      p.handle_msg (.ok (.vlist data)) =
        ⟨[.scheduleMsg [.vint WAMPMsgType.ERROR, .vint WAMPMsgType.UNSUBSCRIBE,
          rid, e.details, .vstr e.uri]], none⟩) ∧
    (∀ m, p.unsubscribe_handler
        { session := p.session, request_id := rid, subscription := sub } =
          .raises m →
      p.handle_msg (.ok (.vlist data)) =
        ⟨[.scheduleMsg [.vint WAMPMsgType.ERROR, .vint WAMPMsgType.SUBSCRIBE,
          rid, .vmap [],
          .vstr "wamp.error.exception_during_rpc_call", .vstr m]], none⟩) := by
  have hroute : p.handle_msg (.ok (.vlist data)) = p.recv_unsubscribe data := by
    simp [WAMPProtocol.handle_msg, h0, pyEqInt, WAMPMsgType.HELLO,
      WAMPMsgType.CALL, WAMPMsgType.SUBSCRIBE, WAMPMsgType.UNSUBSCRIBE]
  constructor
  · intro e he
    rw [hroute]
    simp [WAMPProtocol.recv_unsubscribe, h1, h2, he]
  · intro m hm
    rw [hroute]
    simp [WAMPProtocol.recv_unsubscribe, h1, h2, hm]

/-- C3 witness: the amended theorem's typed-error branch at
`[34, 9, 5]` with `protoB`, and its exception branch at the same envelope
with `protoC`. -/
theorem c3_unsubscribe_error_code_amended_witness :
    WAMPProtocol.handle_msg protoB
        (.ok (.vlist [.vint WAMPMsgType.UNSUBSCRIBE, .vint 9, .vint 5])) =
      ⟨[.scheduleMsg [.vint WAMPMsgType.ERROR, .vint WAMPMsgType.UNSUBSCRIBE,
        .vint 9, .vmap [], .vstr "wamp.error.no_such_subscription"]], none⟩ ∧
    WAMPProtocol.handle_msg protoC
        (.ok (.vlist [.vint WAMPMsgType.UNSUBSCRIBE, .vint 9, .vint 5])) =
      ⟨[.scheduleMsg [.vint WAMPMsgType.ERROR, .vint WAMPMsgType.SUBSCRIBE,
        .vint 9, .vmap [],
        .vstr "wamp.error.exception_during_rpc_call", .vstr "boom"]], none⟩ :=
  ⟨(c3_unsubscribe_error_code_amended protoB _ _ _ rfl rfl rfl).1
      unsubErrResponse rfl,
   (c3_unsubscribe_error_code_amended protoC _ _ _ rfl rfl rfl).2
      "boom" rfl⟩

/-! ### Claim C4 -/

/-- C4: a CALL envelope carrying a `request_id` that is not an integer or
a `uri` that is not a string makes the dispatcher raise an unstructured,
uncaught exception (the bare `raise Exception()` sits outside the `try`
block) and emit no envelope at all: neither a per-request error reply nor
a protocol-violation abort. -/
theorem c4_call_type_validation_fault (p : WAMPProtocol) (data : List Value)
    (rid uri : Value)
    (h0 : data[0]? = some (.vint WAMPMsgType.CALL))
    (h1 : data[1]? = some rid) (h2 : data[2]? = some uri)
    (hbad : ¬ (isinstanceInt rid ∧ isinstanceStr uri)) :
    p.handle_msg (.ok (.vlist data)) = ⟨[], some .validationError⟩ := by
  have hroute : p.handle_msg (.ok (.vlist data)) = p.recv_rpc_call data := by
    simp [WAMPProtocol.handle_msg, h0, pyEqInt, WAMPMsgType.HELLO,
      WAMPMsgType.CALL]
  rw [hroute]
  simp [WAMPProtocol.recv_rpc_call, h1, h2, hbad]

/-- C4 witness: the CALL `[48, "seven", "math.add"]`, whose `request_id`
is a string rather than an integer. -/
theorem c4_call_type_validation_fault_witness :
    WAMPProtocol.handle_msg protoA
        (.ok (.vlist [.vint WAMPMsgType.CALL, .vstr "seven",
          .vstr "math.add"])) = ⟨[], some .validationError⟩ :=
  c4_call_type_validation_fault protoA _ _ _ rfl rfl rfl (by decide)

/-! ### Claim C5 -/

/-- C5: when the RPC executor raises an unexpected exception on a CALL
with integer `request_id` and string `uri`, the dispatcher replies with
exactly `[ERROR, CALL, request_id, {}, "wamp.error.exception_during_rpc_call",
str(e)]`, and the transport is not closed. -/
theorem c5_rpc_exception_error_reply (p : WAMPProtocol) (data : List Value)
    (rid uri : Value) (m : String)
    (h0 : data[0]? = some (.vint WAMPMsgType.CALL))
    (h1 : data[1]? = some rid) (h2 : data[2]? = some uri)
    (hint : isinstanceInt rid) (hstr : isinstanceStr uri)
    (hh : p.rpc_handler
        { session := p.session, request_id := rid, options := .vmap [],
          uri := uri, args := (data[3]?).getD (Value.vlist []),
          kwargs := (data[4]?).getD (Value.vmap []) } = .raises m) :
    p.handle_msg (.ok (.vlist data)) =
      ⟨[.scheduleMsg [.vint WAMPMsgType.ERROR, .vint WAMPMsgType.CALL, rid,
        .vmap [], .vstr "wamp.error.exception_during_rpc_call", .vstr m]],
        none⟩ ∧
    TransportAction.close ∉ (p.handle_msg (.ok (.vlist data))).actions := by
  have hroute : p.handle_msg (.ok (.vlist data)) = p.recv_rpc_call data := by
    simp [WAMPProtocol.handle_msg, h0, pyEqInt, WAMPMsgType.HELLO,
      WAMPMsgType.CALL]
  have hres : p.recv_rpc_call data =
      ⟨[.scheduleMsg [.vint WAMPMsgType.ERROR, .vint WAMPMsgType.CALL, rid,
        .vmap [], .vstr "wamp.error.exception_during_rpc_call", .vstr m]],
        none⟩ := by
    simp [WAMPProtocol.recv_rpc_call, h1, h2, hint, hstr, hh]
  rw [hroute, hres]
  exact ⟨rfl, by simp⟩

/-- C5 witness: the CALL `[48, 7, "math.add"]` against a protocol whose
executor raises with text `boom`. -/
theorem c5_rpc_exception_error_reply_witness :
    WAMPProtocol.handle_msg protoC
        (.ok (.vlist [.vint WAMPMsgType.CALL, .vint 7, .vstr "math.add"])) =
      ⟨[.scheduleMsg [.vint WAMPMsgType.ERROR, .vint WAMPMsgType.CALL,
        .vint 7, .vmap [],
        .vstr "wamp.error.exception_during_rpc_call", .vstr "boom"]],
        none⟩ ∧
    TransportAction.close ∉
      (WAMPProtocol.handle_msg protoC
        (.ok (.vlist [.vint WAMPMsgType.CALL, .vint 7,
          .vstr "math.add"]))).actions :=
  c5_rpc_exception_error_reply protoC _ _ _ "boom" rfl rfl rfl
    (by decide) (by decide) rfl

/-! ### Claim C6 -/

/-- C6: a CALL with integer `request_id` and string `uri` whose executor
returns a plain (non-error) value `r` makes the dispatcher send exactly
one outbound envelope, `[CALL_RESULT, request_id, r]`. -/
theorem c6_call_result_reply (p : WAMPProtocol) (data : List Value)
    (rid uri r : Value)
    (h0 : data[0]? = some (.vint WAMPMsgType.CALL))
    (h1 : data[1]? = some rid) (h2 : data[2]? = some uri)
    (hint : isinstanceInt rid) (hstr : isinstanceStr uri)
    (hh : p.rpc_handler
        { session := p.session, request_id := rid, options := .vmap [],
          uri := uri, args := (data[3]?).getD (Value.vlist []),
          kwargs := (data[4]?).getD (Value.vmap []) } = .result r) :
    p.handle_msg (.ok (.vlist data)) =
      ⟨[.scheduleMsg [.vint WAMPMsgType.CALL_RESULT, rid, r]], none⟩ := by
  have hroute : p.handle_msg (.ok (.vlist data)) = p.recv_rpc_call data := by
    simp [WAMPProtocol.handle_msg, h0, pyEqInt, WAMPMsgType.HELLO,
      WAMPMsgType.CALL]
  rw [hroute]
  simp [WAMPProtocol.recv_rpc_call, h1, h2, hint, hstr, hh]

/-- C6 witness: the claim's own instance — the CALL
`[48, 7, "math.add", [2, 3]]` whose executor returns `5` yields exactly
`[CALL_RESULT, 7, 5]`. -/
theorem c6_call_result_reply_witness :
    WAMPProtocol.handle_msg protoA
        (.ok (.vlist [.vint WAMPMsgType.CALL, .vint 7, .vstr "math.add",
          .vlist [.vint 2, .vint 3]])) =
      ⟨[.scheduleMsg [.vint WAMPMsgType.CALL_RESULT, .vint 7, .vint 5]],
        none⟩ :=
  c6_call_result_reply protoA _ _ _ _ rfl rfl rfl (by decide) (by decide) rfl

/-! ### Claim C8 -/

/-- C8, counterexample: for the peer-sent EVENT envelope `[36, 7]`, the
not-authorized reply is scheduled but handling does not complete cleanly:
`handle_msg` `await`s the `None` returned by the plain-`def`
`do_unauthorized`, so an uncaught `TypeError` escapes after the reply is
scheduled.  This refutes the claim's description of the exchange as one in
which nothing happens beyond the reply — the envelope does not leave the
session in undisturbed normal operation, an uncaught fault escapes the
dispatcher. -/
theorem c8_unauthorized_counterexample :
    WAMPProtocol.handle_msg protoA
        (.ok (.vlist [.vint WAMPMsgType.EVENT, .vint 7])) =
      ⟨[.scheduleMsg [.vint WAMPMsgType.EVENT, .vint 7, .vmap [],
        .vstr "wamp.error.not_authorized"]], some .awaitTypeError⟩ ∧
    (WAMPProtocol.handle_msg protoA
        (.ok (.vlist [.vint WAMPMsgType.EVENT, .vint 7]))).fault ≠ none :=
  ⟨rfl, fun h => Option.noConfusion h⟩

/-- C8, amended: an EVENT (36) or INVOCATION (68) envelope from the peer
is answered with `[message_type, request_id, {}, "wamp.error.not_authorized"]`
— the offending type code echoed as the first field and the envelope's
second element as `request_id` — and the dispatcher itself closes nothing
and changes no state; however, after the reply is scheduled an uncaught
`TypeError` escapes `handle_msg`, because it `await`s the `None` returned
by the plain-`def` `do_unauthorized`. -/
theorem c8_unauthorized_amended (p : WAMPProtocol)
    (data : List Value) (t rid : Value)
    (h0 : data[0]? = some t) (h1 : data[1]? = some rid)
    (ht : t = .vint WAMPMsgType.EVENT ∨ t = .vint WAMPMsgType.INVOCATION) :
    p.handle_msg (.ok (.vlist data)) =
      ⟨[.scheduleMsg [t, rid, .vmap [], .vstr "wamp.error.not_authorized"]],
        some .awaitTypeError⟩ ∧
    TransportAction.close ∉ (p.handle_msg (.ok (.vlist data))).actions := by
  have hres : p.handle_msg (.ok (.vlist data)) =
      ⟨[.scheduleMsg [t, rid, .vmap [], .vstr "wamp.error.not_authorized"]],
        some .awaitTypeError⟩ := by
    rcases ht with ht | ht <;> subst ht <;>
      simp [WAMPProtocol.handle_msg, h0, pyEqInt, WAMPMsgType.HELLO,
        WAMPMsgType.CALL, WAMPMsgType.SUBSCRIBE, WAMPMsgType.UNSUBSCRIBE,
        WAMPMsgType.EVENT, WAMPMsgType.INVOCATION,
        WAMPProtocol.do_unauthorized, h1]
  rw [hres]
  exact ⟨rfl, by simp⟩

/-- C8 witness: the amended theorem at the peer-sent EVENT envelope
`[36, 7]`. -/
theorem c8_unauthorized_amended_witness :
    WAMPProtocol.handle_msg protoA
        (.ok (.vlist [.vint WAMPMsgType.EVENT, .vint 7])) =
      ⟨[.scheduleMsg [.vint WAMPMsgType.EVENT, .vint 7, .vmap [],
        .vstr "wamp.error.not_authorized"]], some .awaitTypeError⟩ ∧
    TransportAction.close ∉
      (WAMPProtocol.handle_msg protoA
        (.ok (.vlist [.vint WAMPMsgType.EVENT, .vint 7]))).actions :=
  c8_unauthorized_amended protoA _ _ _ rfl rfl (Or.inl rfl)

/-! ### Claim C9 -/

/-- C9: a well-formed array envelope whose first element is an integer
code outside the recognized set yields exactly one ABORT envelope
`[ABORT, {message: reason}, "wamp.error.protocol_violation"]` followed by a
transport-close request, in that order, and no fault. -/
theorem c9_unknown_type_abort_close (p : WAMPProtocol) (data : List Value)
    (n : Int) (h0 : data[0]? = some (.vint n))
    (hn : n ∉ ([1, 48, 32, 34, 36, 68, 16, 17] : List Int)) :
    p.handle_msg (.ok (.vlist data)) =
      ⟨[.scheduleMsg [.vint WAMPMsgType.ABORT,
        .vmap [("message", .vstr "Unknown WAMP message type.")],
        .vstr "wamp.error.protocol_violation"], .close], none⟩ := by
  simp only [List.mem_cons, List.not_mem_nil, or_false, not_or] at hn
  obtain ⟨n1, n48, n32, n34, n36, n68, n16, n17⟩ := hn
  simp [WAMPProtocol.handle_msg, h0, pyEqInt, WAMPMsgType.HELLO,
    WAMPMsgType.CALL, WAMPMsgType.SUBSCRIBE, WAMPMsgType.UNSUBSCRIBE,
    WAMPMsgType.EVENT, WAMPMsgType.INVOCATION, WAMPMsgType.PUBLISH,
    WAMPMsgType.PUBLISHED, WAMPMsgType.ABORT,
    WAMPProtocol.do_protocol_violation, n1, n48, n32, n34, n36, n68, n16, n17]

/-- C9 witness: the envelope `[99]`, whose type code 99 is unrecognized. -/
theorem c9_unknown_type_abort_close_witness :
    WAMPProtocol.handle_msg protoA (.ok (.vlist [.vint 99])) =
      ⟨[.scheduleMsg [.vint WAMPMsgType.ABORT,
        .vmap [("message", .vstr "Unknown WAMP message type.")],
        .vstr "wamp.error.protocol_violation"], .close], none⟩ :=
  c9_unknown_type_abort_close protoA _ _ rfl (by decide)
